import Mathlib

/-!
Verification of the GarminPenguinExpress core against its specification.

The definitions below are a shallow embedding of the Python sources
`activity_sync.py`, `workout_manager.py` and `sync_service.py`:

* Python dicts holding the activity manifest become extensional maps
  `String → Option ManifestRecord`; a manifest record tracks exactly the
  four keys the code ever writes (`sha256`, `uploaded`, `upload_id`,
  `last_uploaded`), each `Option`-wrapped to model key absence.
* `datetime.utcnow()` is threaded in as an explicit `now : String`.
* Filesystem and subprocess effects are abstracted into explicit inputs:
  the per-file success of a `gio copy` / `gio remove` call becomes a
  boolean oracle, the directory listing becomes a list of names, and the
  log callback becomes an accumulated list of lines.
-/

/-- One value of the manifest mapping, `relative_path -> record`.
A field of value `none` models the key being absent from the dict. -/
structure ManifestRecord where
  sha256 : Option String := none
  uploaded : Option Bool := none
  upload_id : Option (Option String) := none
  last_uploaded : Option String := none
deriving DecidableEq

/-- The in-memory `ActivityManifest._payload` dict, as an extensional map. -/
abbrev ManifestPayload := String → Option ManifestRecord

/-- Python truthiness of a record dict: `not record` is true iff the dict is
empty, i.e. none of the tracked keys is present. -/
def ManifestRecord.isFalsy (r : ManifestRecord) : Bool :=
  r.sha256.isNone && r.uploaded.isNone && r.upload_id.isNone && r.last_uploaded.isNone

/-- The payload of a freshly constructed manifest: `self._payload = {}`. -/
def ActivityManifest.emptyPayload : ManifestPayload := fun _ => none

/-- `ActivityManifest.mark_uploaded`: `setdefault(relative_path, {})` followed by
`record.update({...})`.  The update writes every key the model tracks, so the
resulting record is fully determined by the arguments. -/
def ActivityManifest.mark_uploaded (m : ManifestPayload) (relative_path sha256 : String)
    (upload_id : Option String) (now : String) : ManifestPayload :=
  fun q =>
    if q = relative_path then
      some { sha256 := some sha256, uploaded := some true,
             upload_id := some upload_id, last_uploaded := some now }
    else m q

/-- `ActivityManifest.mark_copied`: `setdefault(relative_path, {})` followed by
`record.setdefault("sha256", sha256)` — the hash is written only if absent. -/
def ActivityManifest.mark_copied (m : ManifestPayload) (relative_path sha256 : String) :
    ManifestPayload :=
  fun q =>
    if q = relative_path then
      let record := (m relative_path).getD {}
      some { record with sha256 := some (record.sha256.getD sha256) }
    else m q

/-- `ActivityManifest.is_uploaded`: hash-gated lookup.  `if not record` covers
both a missing key (`dict.get` returning `None`) and an empty record dict. -/
def ActivityManifest.is_uploaded (m : ManifestPayload) (relative_path sha256 : String) :
    Bool × Option String :=
  match m relative_path with
  | none => (false, none)
  | some record =>
    if record.isFalsy then (false, none)
    else if record.sha256 ≠ some sha256 then (false, none)
    else (record.uploaded.getD false, record.upload_id.getD none)

/-- The state of the manifest file as `ActivityManifest._load` observes it:
missing, present but rejected by `json.loads` with a `JSONDecodeError`, or
successfully parsed into a mapping. -/
inductive ManifestFileState where
  | missing
  | malformedJson
  | parsed (payload : ManifestPayload)

/-- `ActivityManifest.__init__` / `_load`: a missing file leaves the initial
`{}` untouched (early return); a `JSONDecodeError` is caught and the payload
reset to `{}`; a parsed document becomes the payload. -/
def ActivityManifest.load_manifest : ManifestFileState → ManifestPayload
  | .missing => fun _ => none
  | .malformedJson => fun _ => none
  | .parsed payload => payload

/-- The fields of `ActivityEntry` that `ActivityRepository.mark_uploaded`
reads.  The source dataclass carries further scan-derived metadata
(timestamps, size, sport, ...) that no embedded operation consumes. -/
structure ActivityEntry where
  relative_path : String
  sha256 : String
deriving DecidableEq

/-- `ActivityRepository.mark_uploaded`: `for entry, upload_id in
zip(entries, upload_ids, strict=False): manifest.mark_uploaded(...)`.
`List.zip` is exactly the truncating `strict=False` zip. -/
def ActivityRepository.mark_uploaded (entries : List ActivityEntry)
    (upload_ids : List (Option String)) (now : String) (m : ManifestPayload) :
    ManifestPayload :=
  (entries.zip upload_ids).foldl
    (fun acc ex => ActivityManifest.mark_uploaded acc ex.1.relative_path ex.1.sha256 ex.2 now) m

/-! ## Workout templates and the payload compiler (`workout_manager.py`) -/

/-- `WorkoutTemplate` dataclass.  Seconds/repeat counts are Python ints,
modelled as `Int` (the spec discusses negative inputs). -/
structure WorkoutTemplate where
  name : String
  sport : String
  warmup_seconds : Int
  interval_seconds : Int
  recovery_seconds : Int
  repeats : Int
  cooldown_seconds : Int
deriving DecidableEq

/-- `WorkoutTemplate.estimated_duration`: running total with each component
clamped below at 0. -/
def WorkoutTemplate.estimated_duration (t : WorkoutTemplate) : Int :=
  max 0 t.warmup_seconds + max 0 t.cooldown_seconds +
    (max 0 t.interval_seconds + max 0 t.recovery_seconds) * max 0 t.repeats

/-- One row of the `SPORT_TYPES` table. -/
structure SportType where
  sportTypeId : Nat
  sportTypeKey : String
  displayOrder : Nat
deriving DecidableEq

/-- The `SPORT_TYPES` dict, as a lookup returning `none` for unknown keys. -/
def SPORT_TYPES (key : String) : Option SportType :=
  if key = "running" then some ⟨1, "running", 1⟩
  else if key = "cycling" then some ⟨2, "cycling", 2⟩
  else if key = "other" then some ⟨9, "other", 9⟩
  else none

/-- One row of the `STEP_TYPES` table. -/
structure StepType where
  stepTypeId : Nat
  stepTypeKey : String
  displayOrder : Nat
deriving DecidableEq

/-- The `STEP_TYPES` dict.  The source indexes it only with the five literal
keys below; the final branch is the "repeat" row. -/
def STEP_TYPES (key : String) : StepType :=
  if key = "warmup" then ⟨1, "warmup", 1⟩
  else if key = "cooldown" then ⟨2, "cooldown", 2⟩
  else if key = "interval" then ⟨3, "interval", 3⟩
  else if key = "recovery" then ⟨4, "recovery", 4⟩
  else ⟨6, "repeat", 6⟩

/-- A step dict of the workout payload: either an `ExecutableStepDTO` or a
`RepeatGroupDTO` with child steps.  `endConditionValue` is `float(n)` of an
int in the source; the exact integer is kept. -/
inductive WorkoutStep where
  | executableStep (stepOrder : Nat) (stepType : StepType) (endConditionValue : Int)
  | repeatGroup (stepOrder : Nat) (stepType : StepType) (numberOfIterations : Int)
      (workoutSteps : List WorkoutStep) (endConditionValue : Int) (smartRepeat : Bool)

/-- `executable_step(order, step_type_key, seconds)`. -/
def executable_step (order : Nat) (step_type_key : String) (seconds : Int) : WorkoutStep :=
  .executableStep order (STEP_TYPES step_type_key) seconds

/-- `build_repeat_block(order, template)`: parent claims `order`, the interval
and recovery children claim `order + 1` and `order + 2`, and the returned
updated counter is `order + 2`. -/
def build_repeat_block (order : Nat) (t : WorkoutTemplate) : WorkoutStep × Nat :=
  let interval_step := executable_step (order + 1) "interval" t.interval_seconds
  let recovery_step := executable_step (order + 2) "recovery" t.recovery_seconds
  (.repeatGroup order (STEP_TYPES "repeat") t.repeats [interval_step, recovery_step]
      t.repeats false,
   order + 2)

/-- One entry of `workoutSegments`. -/
structure WorkoutSegment where
  segmentOrder : Nat
  sportType : SportType
  workoutSteps : List WorkoutStep

/-- The dict returned by `WorkoutManager.build_payload`. -/
structure WorkoutPayload where
  workoutName : String
  sportType : SportType
  estimatedDurationInSecs : Int
  workoutSegments : List WorkoutSegment

/-- `WorkoutManager.build_payload`.  The mutable `steps`/`order` pair of the
source loop is threaded through as explicit pairs `s1`, `s2`. -/
def build_payload (t : WorkoutTemplate) : WorkoutPayload :=
  let sport := (SPORT_TYPES t.sport).getD ⟨1, "running", 1⟩
  let s0 : List WorkoutStep × Nat := ([], 1)
  let s1 : List WorkoutStep × Nat :=
    if t.warmup_seconds > 0 then
      (s0.1 ++ [executable_step s0.2 "warmup" t.warmup_seconds], s0.2 + 1)
    else s0
  let s2 : List WorkoutStep × Nat :=
    if t.repeats > 0 ∧ t.interval_seconds > 0 then
      let rb := build_repeat_block s1.2 t
      (s1.1 ++ [rb.1], rb.2)
    else s1
  let steps : List WorkoutStep :=
    if t.cooldown_seconds > 0 then
      s2.1 ++ [executable_step s2.2 "cooldown" t.cooldown_seconds]
    else s2.1
  { workoutName := t.name
    sportType := sport
    estimatedDurationInSecs := t.estimated_duration
    workoutSegments := [{ segmentOrder := 1, sportType := sport, workoutSteps := steps }] }

/-- The `stepOrder` field of a step. -/
def WorkoutStep.stepOrder : WorkoutStep → Nat
  | .executableStep o _ _ => o
  | .repeatGroup o _ _ _ _ _ => o

/-- The immediate child steps of a step (nonempty only for repeat groups;
this compiler nests exactly one level deep). -/
def WorkoutStep.childSteps : WorkoutStep → List WorkoutStep
  | .executableStep _ _ _ => []
  | .repeatGroup _ _ _ children _ _ => children

/-- All step-order indices carried by a payload, in emission order: for every
top-level step of every segment, its own order followed by its children's. -/
def payloadOrders (p : WorkoutPayload) : List Nat :=
  ((p.workoutSegments.map (fun seg =>
      seg.workoutSteps.map (fun s =>
        s.stepOrder :: s.childSteps.map WorkoutStep.stepOrder))).flatten).flatten

/-- Modelled from the amended wording of the step-order claim: a counter
starts at 1; a warmup consumes one index; a repeat block claims `n`, its
children `n + 1` and `n + 2`, and leaves the counter at `n + 2`; a cooldown
claims whatever the counter then holds (so it repeats the recovery child's
index when a repeat block was emitted). -/
def specStepOrders (t : WorkoutTemplate) : List Nat :=
  let afterWarmup : Nat := if t.warmup_seconds > 0 then 2 else 1
  let afterRepeat : Nat :=
    if t.repeats > 0 ∧ t.interval_seconds > 0 then afterWarmup + 2 else afterWarmup
  (if t.warmup_seconds > 0 then [1] else []) ++
    (if t.repeats > 0 ∧ t.interval_seconds > 0 then
      [afterWarmup, afterWarmup + 1, afterWarmup + 2] else []) ++
    (if t.cooldown_seconds > 0 then [afterRepeat] else [])

/-- `sanitize_filename`'s per-character rule: keep
alphanumerics, `-` and `_`; replace anything else with `_`.  (`isAlphanum`
is the ASCII fragment of Python's Unicode `str.isalnum`.) -/
def sanitize_char (ch : Char) : Char :=
  if ch.isAlphanum ∨ ch = '-' ∨ ch = '_' then ch else '_'

/-- Python's `str.strip()`: drop whitespace from both ends. -/
def strip_chars (l : List Char) : List Char :=
  ((l.dropWhile Char.isWhitespace).reverse.dropWhile Char.isWhitespace).reverse

/-- `sanitize_filename(name)`: strip surrounding whitespace, map
`sanitize_char` over the rest, and fall back to `"workout"` only when the
result is the empty string (Python `safe or "workout"`). -/
def sanitize_filename (name : String) : String :=
  let safe := String.mk ((strip_chars name.data).map sanitize_char)
  if safe = "" then "workout" else safe

/-! ## Sync orchestrator failure policy (`sync_service.py`, `gio_utils.py`)

`copy_library_to_watch` is embedded over its observable inputs: whether the
source directory exists, the sorted list of regular-file names under it, and
a per-file oracle giving the `gio copy` success reported for that file
(`GioCommandResult.ok`).  The conversion branch is the `auto_convert=False`
path, which the copy-failure claims concern.  Raised exceptions become
`Except.error`; the log callback becomes the returned list of lines. -/

/-- `copy_library_to_watch`: raises `FileNotFoundError` for a missing source
directory, logs and returns on an empty listing, and otherwise copies every
file in order, logging per-file success or failure via `_gio_copy_with_log`
(which never raises — `gio_copy` is run with `check=False`). -/
def copy_library_to_watch (src_dir_exists : Bool) (files : List String)
    (copy_ok : String → Bool) : Except String (List String) :=
  if src_dir_exists = false then
    Except.error "Source directory does not exist"
  else if files = [] then
    Except.ok ["Copying files", "No files found"]
  else
    Except.ok ("Copying files" :: files.map (fun f =>
      if copy_ok f then "Copied " ++ f else "Failed to copy " ++ f))

/-- `wipe_directory`: removes each listed child via `gio_remove`, which logs
success or failure and never raises. -/
def wipe_directory (entries : List String) (remove_ok : String → Bool) : List String :=
  (entries.map (fun e =>
    ["Removing " ++ e,
     if remove_ok e then "Removed " ++ e else "Failed to remove " ++ e])).flatten

/-! ## Concrete fixtures used by counterexamples and witnesses -/

/-- The interval template of the spec scenarios, with `repeats = 4`. -/
def exampleTemplate : WorkoutTemplate :=
  ⟨"Penguin Intervals", "running", 300, 60, 60, 4, 300⟩

/-- The spec's duration scenario template, with `repeats = 6`. -/
def durationTemplate : WorkoutTemplate :=
  ⟨"Tempo Tuesday", "running", 300, 60, 60, 6, 300⟩

/-- A one-record manifest payload whose record is fully populated with
`uploaded = true`. -/
def samplePayload : ManifestPayload :=
  fun q =>
    if q = "GARMIN/Activity/a.fit" then
      some { sha256 := some "h0", uploaded := some true,
             upload_id := some (some "99"), last_uploaded := some "2024-01-01T00:00:00" }
    else none

/-! ## Helper lemmas (shared) -/

/-- Zipping truncates to the shorter list: the zip equals the zip of the two
lists each cut down to the other's length. -/
theorem zip_take_length_eq {α β : Type} (l1 : List α) (l2 : List β) :
    l1.zip l2 = (l1.take l2.length).zip (l2.take l1.length) := by
  induction l1 generalizing l2 with
  | nil => simp
  | cons a l1 ih =>
    cases l2 with
    | nil => simp
    | cons b l2 => simp [ih]

/-- Positional pairing of `List.zip`, phrased with optional indexing. -/
theorem zip_getElem_pos {α β : Type} (l1 : List α) (l2 : List β) (i : Nat) :
    (l1.zip l2)[i]? = (l1[i]?.bind fun a => l2[i]?.map fun b => (a, b)) := by
  induction l1 generalizing l2 i with
  | nil => simp
  | cons a l1 ih =>
    cases l2 with
    | nil => simp
    | cons b l2 =>
      cases i with
      | zero => simp
      | succ n => simpa using ih l2 n

/-! ## Claim theorems -/

/-- Claim C1: `is_uploaded(p, h)` returns `(false, none)` when no record
exists for `p` or when the stored hash differs from `h`; immediately after
`mark_uploaded(p, h, id)` it returns `(true, id)` for hash `h` and
`(false, none)` for any other hash `h2`. -/
theorem c1_hash_gated_lookup (m : ManifestPayload) (p h h2 : String)
    (id : Option String) (now : String) (hne : h2 ≠ h) :
    (m p = none → ActivityManifest.is_uploaded m p h = (false, none)) ∧
    (∀ r, m p = some r → r.sha256 ≠ some h →
      ActivityManifest.is_uploaded m p h = (false, none)) ∧
    ActivityManifest.is_uploaded (ActivityManifest.mark_uploaded m p h id now) p h
      = (true, id) ∧
    ActivityManifest.is_uploaded (ActivityManifest.mark_uploaded m p h id now) p h2
      = (false, none) := by
  have hsym : h ≠ h2 := fun e => hne e.symm
  refine ⟨?_, ?_, ?_, ?_⟩
  · intro hm
    simp [ActivityManifest.is_uploaded, hm]
  · intro r hm hr
    by_cases hf : r.isFalsy <;>
      simp [ActivityManifest.is_uploaded, hm, hf, hr]
  · simp [ActivityManifest.is_uploaded, ActivityManifest.mark_uploaded,
      ManifestRecord.isFalsy]
  · simp [ActivityManifest.is_uploaded, ActivityManifest.mark_uploaded,
      ManifestRecord.isFalsy, hsym]

/-- Claim C1 witness: concrete evaluation of the two post-`mark_uploaded`
lookups on the empty manifest. -/
theorem c1_witness :
    ActivityManifest.is_uploaded
        (ActivityManifest.mark_uploaded ActivityManifest.emptyPayload
          "GARMIN/Activity/a.fit" "h1" (some "42") "t0")
        "GARMIN/Activity/a.fit" "h1" = (true, some "42") ∧
    ActivityManifest.is_uploaded
        (ActivityManifest.mark_uploaded ActivityManifest.emptyPayload
          "GARMIN/Activity/a.fit" "h1" (some "42") "t0")
        "GARMIN/Activity/a.fit" "h2" = (false, none) := by
  have h := c1_hash_gated_lookup ActivityManifest.emptyPayload
    "GARMIN/Activity/a.fit" "h1" "h2" (some "42") "t0" (by decide)
  exact ⟨h.2.2.1, h.2.2.2⟩

/-- Claim C7: `mark_copied(p, h)` writes a hash only when none is recorded,
and never changes an existing record's hash, uploaded flag, upload id or
last-uploaded timestamp. -/
theorem c7_mark_copied_no_downgrade (m : ManifestPayload) (p h : String) :
    (m p = none →
      ActivityManifest.mark_copied m p h p = some { sha256 := some h }) ∧
    ∀ r, m p = some r →
      ∃ r', ActivityManifest.mark_copied m p h p = some r' ∧
        r'.uploaded = r.uploaded ∧ r'.upload_id = r.upload_id ∧
        r'.last_uploaded = r.last_uploaded ∧
        (r.sha256 = none → r'.sha256 = some h) ∧
        (∀ s, r.sha256 = some s → r'.sha256 = some s) := by
  constructor
  · intro hm
    simp [ActivityManifest.mark_copied, hm]
  · intro r hm
    refine ⟨{ r with sha256 := some (r.sha256.getD h) }, ?_, rfl, rfl, rfl, ?_, ?_⟩
    · simp [ActivityManifest.mark_copied, hm]
    · intro hs; simp [hs]
    · intro s hs; simp [hs]

/-- Claim C7 witness: `mark_copied` over a record with `uploaded = true`
keeps the uploaded flag, the upload id and the stored hash. -/
theorem c7_witness :
    ∃ r', ActivityManifest.mark_copied samplePayload "GARMIN/Activity/a.fit" "hNew"
        "GARMIN/Activity/a.fit" = some r' ∧
      r'.uploaded = some true ∧ r'.upload_id = some (some "99") ∧
      r'.sha256 = some "h0" := by
  obtain ⟨r', h1, h2, h3, _h4, _h5, h6⟩ :=
    (c7_mark_copied_no_downgrade samplePayload "GARMIN/Activity/a.fit" "hNew").2
      { sha256 := some "h0", uploaded := some true, upload_id := some (some "99"),
        last_uploaded := some "2024-01-01T00:00:00" } rfl
  exact ⟨r', h1, h2, h3, h6 "h0" rfl⟩

/-- Claim C8: a missing manifest file or a document rejected by the JSON
parser yields the empty manifest, on which `is_uploaded` returns
`(false, none)` for every path and hash. -/
theorem c8_load_resilience (s : ManifestFileState) (p h : String)
    (hs : s = ManifestFileState.missing ∨ s = ManifestFileState.malformedJson) :
    ActivityManifest.load_manifest s p = none ∧
    ActivityManifest.is_uploaded (ActivityManifest.load_manifest s) p h
      = (false, none) := by
  rcases hs with h1 | h1 <;> subst h1 <;>
    simp [ActivityManifest.load_manifest, ActivityManifest.is_uploaded]

/-- Claim C8 witness: lookup on a manifest loaded from a missing file. -/
theorem c8_witness :
    ActivityManifest.is_uploaded
        (ActivityManifest.load_manifest ManifestFileState.missing)
        "GARMIN/Monitor/m.fit" "deadbeef" = (false, none) :=
  (c8_load_resilience ManifestFileState.missing "GARMIN/Monitor/m.fit" "deadbeef"
    (Or.inl rfl)).2

/-- Claim C9: `ActivityRepository.mark_uploaded` zips entries with upload
ids truncating to the shorter sequence — the zip's length is the minimum of
the two lengths, the fold is unchanged by cutting each list to the other's
length, and position `i` pairs `entries[i]` with `upload_ids[i]`. -/
theorem c9_zip_truncate (entries : List ActivityEntry)
    (upload_ids : List (Option String)) (now : String) (m : ManifestPayload) :
    (entries.zip upload_ids).length = min entries.length upload_ids.length ∧
    ActivityRepository.mark_uploaded entries upload_ids now m
      = ActivityRepository.mark_uploaded (entries.take upload_ids.length)
          (upload_ids.take entries.length) now m ∧
    ∀ i : Nat, (entries.zip upload_ids)[i]?
      = (entries[i]?.bind fun e => upload_ids[i]?.map fun x => (e, x)) := by
  refine ⟨by simp, ?_, fun i => zip_getElem_pos entries upload_ids i⟩
  unfold ActivityRepository.mark_uploaded
  rw [← zip_take_length_eq]

/-- Claim C9 witness: two entries zipped against a single upload id mark the
same records as the sequences truncated to length one. -/
theorem c9_witness :
    ActivityRepository.mark_uploaded
        [⟨"GARMIN/Activity/a.fit", "h1"⟩, ⟨"GARMIN/Activity/b.fit", "h2"⟩]
        [some "7"] "t0" ActivityManifest.emptyPayload
      = ActivityRepository.mark_uploaded
          ([(⟨"GARMIN/Activity/a.fit", "h1"⟩ : ActivityEntry),
            ⟨"GARMIN/Activity/b.fit", "h2"⟩].take 1)
          ([(some "7" : Option String)].take 2) "t0" ActivityManifest.emptyPayload :=
  (c9_zip_truncate _ _ _ _).2.1

/-- Claim C10: for a path `q` distinct from `p`, both `mark_uploaded(p, ...)`
and `mark_copied(p, ...)` leave the record stored for `q` unchanged. -/
theorem c10_per_path_frame (m : ManifestPayload) (p q h : String)
    (id : Option String) (now : String) (hq : q ≠ p) :
    ActivityManifest.mark_uploaded m p h id now q = m q ∧
    ActivityManifest.mark_copied m p h q = m q := by
  constructor <;>
    simp [ActivityManifest.mark_uploaded, ActivityManifest.mark_copied, hq]

/-- Claim C10 witness: marking a different path leaves the sample record
untouched. -/
theorem c10_witness :
    ActivityManifest.mark_uploaded samplePayload "GARMIN/Monitor/b.fit" "h7"
        (some "7") "t1" "GARMIN/Activity/a.fit"
      = samplePayload "GARMIN/Activity/a.fit" ∧
    ActivityManifest.mark_copied samplePayload "GARMIN/Monitor/b.fit" "h7"
        "GARMIN/Activity/a.fit"
      = samplePayload "GARMIN/Activity/a.fit" :=
  c10_per_path_frame samplePayload "GARMIN/Monitor/b.fit" "GARMIN/Activity/a.fit"
    "h7" (some "7") "t1" (by decide)

/-- Claim C2 counterexample: on a template with warmup, repeat block and
cooldown all present, the emitted order indices are `[1, 2, 3, 4, 4]` — the
cooldown repeats the recovery child's index, so they are not all distinct. -/
theorem c2_counterexample :
    payloadOrders (build_payload exampleTemplate) = [1, 2, 3, 4, 4] ∧
    ¬ (payloadOrders (build_payload exampleTemplate)).Nodup := by
  constructor <;> decide

/-- Claim C2 (amended): step-order indices come from a running counter
starting at 1 in the order warmup, repeat block, cooldown; the repeat parent
claims `n` and its children `n + 1` and `n + 2`, but the counter resumes at
`n + 2`, so a cooldown following a repeat block carries the same index as
the recovery child. -/
theorem c2_step_orders (t : WorkoutTemplate) :
    payloadOrders (build_payload t) = specStepOrders t := by
  by_cases h1 : t.warmup_seconds > 0 <;>
  by_cases h2 : t.repeats > 0 ∧ t.interval_seconds > 0 <;>
  by_cases h3 : t.cooldown_seconds > 0 <;>
  simp [build_payload, specStepOrders, build_repeat_block, payloadOrders,
    executable_step, WorkoutStep.stepOrder, WorkoutStep.childSteps, h1, h2, h3]

/-- Claim C3: the payload wraps a single segment with `segmentOrder` 1, and
its top-level step count is the sum of the three emission indicators. -/
theorem c3_step_count (t : WorkoutTemplate) :
    (build_payload t).workoutSegments.map WorkoutSegment.segmentOrder = [1] ∧
    (build_payload t).workoutSegments.map (fun seg => seg.workoutSteps.length)
      = [(if t.warmup_seconds > 0 then 1 else 0) +
          (if t.repeats > 0 ∧ t.interval_seconds > 0 then 1 else 0) +
          (if t.cooldown_seconds > 0 then 1 else 0)] := by
  constructor
  · simp [build_payload]
  · by_cases h1 : t.warmup_seconds > 0 <;>
    by_cases h2 : t.repeats > 0 ∧ t.interval_seconds > 0 <;>
    by_cases h3 : t.cooldown_seconds > 0 <;>
    simp [build_payload, build_repeat_block, h1, h2, h3]

/-- Claim C4 counterexample: an all-invalid name maps to underscores, not to
the `"workout"` fallback — `sanitize_filename("???") = "___"`. -/
theorem c4_counterexample :
    sanitize_filename "???" = "___" ∧ sanitize_filename "???" ≠ "workout" := by
  constructor <;> decide

/-- Claim C4 (amended): after stripping surrounding whitespace, every
character that is not alphanumeric, `-` or `_` is replaced with `_`; the
`"workout"` fallback fires only when the stripped name is empty.  In
particular `sanitize_filename("Tempo Tuesday!") = "Tempo_Tuesday_"` and
`sanitize_filename("???") = "___"`. -/
theorem c4_sanitize (name : String) :
    sanitize_filename "Tempo Tuesday!" = "Tempo_Tuesday_" ∧
    sanitize_filename "???" = "___" ∧
    (sanitize_filename name).data
      = (if strip_chars name.data = [] then "workout".data
         else (strip_chars name.data).map sanitize_char) := by
  have hmk : ∀ l : List Char, (String.mk l = "") ↔ l = [] := by
    intro l
    constructor
    · intro hl
      have hd := congrArg String.data hl
      simpa using hd
    · intro hl
      subst hl
      rfl
  refine ⟨by decide, by decide, ?_⟩
  unfold sanitize_filename
  rcases h : strip_chars name.data with _ | ⟨c, cs⟩ <;> simp [h, hmk]

/-- Claim C6: `build_payload` reports `estimatedDurationInSecs` equal to
`estimated_duration`, which is the clamped sum
`warmup + cooldown + repeats * (interval + recovery)`; on the spec's
scenario template it is exactly 1320 seconds. -/
theorem c6_estimated_duration (t : WorkoutTemplate) :
    (build_payload t).estimatedDurationInSecs = t.estimated_duration ∧
    t.estimated_duration
      = max 0 t.warmup_seconds + max 0 t.cooldown_seconds +
          (max 0 t.interval_seconds + max 0 t.recovery_seconds) * max 0 t.repeats ∧
    durationTemplate.estimated_duration = 1320 ∧
    (build_payload durationTemplate).estimatedDurationInSecs = 1320 :=
  ⟨rfl, rfl, by decide, by decide⟩

/-- Claim C5 counterexample: when the first copy fails and the second
succeeds, `copy_library_to_watch` still processes the second file and
returns normally — it does not abort on the first copy failure. -/
theorem c5_counterexample :
    copy_library_to_watch true ["a.mp3", "b.mp3"] (fun f => f == "b.mp3")
      = Except.ok ["Copying files", "Failed to copy a.mp3", "Copied b.mp3"] := by
  rfl

/-- Claim C5 (amended): for an existing source directory,
`copy_library_to_watch` never propagates a copy failure: it returns
normally for every sequence of per-file outcomes, logging a success or
failure line for every file — the same log-and-continue policy as
`wipe_directory`. -/
theorem c5_log_and_continue (files : List String) (copy_ok : String → Bool)
    (entries : List String) (remove_ok : String → Bool) :
    (∃ logs, copy_library_to_watch true files copy_ok = Except.ok logs ∧
      ∀ f ∈ files,
        (copy_ok f = true → ("Copied " ++ f) ∈ logs) ∧
        (copy_ok f = false → ("Failed to copy " ++ f) ∈ logs)) ∧
    ∀ e ∈ entries,
      (remove_ok e = true → ("Removed " ++ e) ∈ wipe_directory entries remove_ok) ∧
      (remove_ok e = false →
        ("Failed to remove " ++ e) ∈ wipe_directory entries remove_ok) := by
  constructor
  · by_cases hf : files = []
    · subst hf
      exact ⟨["Copying files", "No files found"], rfl, by simp⟩
    · refine ⟨"Copying files" :: files.map (fun f =>
        if copy_ok f then "Copied " ++ f else "Failed to copy " ++ f), ?_, ?_⟩
      · simp [copy_library_to_watch, hf]
      · intro f hfm
        constructor <;> intro hc <;>
          exact List.mem_cons_of_mem _
            (List.mem_map.mpr ⟨f, hfm, by simp [hc]⟩)
  · intro e he
    constructor <;> intro hr <;>
      refine List.mem_flatten.mpr ⟨_, List.mem_map.mpr ⟨e, he, rfl⟩, by simp [hr]⟩

/-- Claim C5 witness: concrete run with a failing first copy, instantiating
the log-and-continue theorem. -/
theorem c5_witness :
    (∃ logs, copy_library_to_watch true ["a.mp3", "b.mp3"] (fun f => f == "b.mp3")
        = Except.ok logs ∧
      ∀ f ∈ ["a.mp3", "b.mp3"],
        ((f == "b.mp3") = true → ("Copied " ++ f) ∈ logs) ∧
        ((f == "b.mp3") = false → ("Failed to copy " ++ f) ∈ logs)) ∧
    ∀ e ∈ ["old.mp3"],
      ((e == "old.mp3") = true →
        ("Removed " ++ e) ∈ wipe_directory ["old.mp3"] (fun x => x == "old.mp3")) ∧
      ((e == "old.mp3") = false →
        ("Failed to remove " ++ e) ∈ wipe_directory ["old.mp3"] (fun x => x == "old.mp3")) :=
  c5_log_and_continue ["a.mp3", "b.mp3"] (fun f => f == "b.mp3")
    ["old.mp3"] (fun x => x == "old.mp3")
